import Mathlib

/-!
Verification development for the validated-generation pipeline of the
casus-test repository (backend/src/services/llm.ts, backend/src/types/index.ts,
backend/src/services/promptEngine.ts and the Express route handlers).

The embedding is shallow:

* JSON values are modelled by the inductive `Casus.Json`; numbers are `Rat`
  (the concrete decimal values exercised here are exact in both ℚ and IEEE
  doubles).
* Zod `safeParse` of `BenchmarkResultSchema` / `ReviewResultSchema` is
  translated field by field from `types/index.ts` into `benchmarkSafeParse` /
  `reviewSafeParse`, including Zod's issue collection (one issue per violating
  field, in schema shape order, arrays element by element).
* The host runtime's `JSON.parse` is not re-implemented over character
  strings; a raw LLM output is modelled as `Raw`: the literal text together
  with its parse result (`none` when the text is not valid JSON).
  `JSON.stringify` of a structured payload always yields text that parses
  back to the same JSON value, so serialize-then-parse is modelled directly
  by `Raw.ofJson`.
* The OpenAI call in `callLLM` is modelled by an oracle `Nat → CallOutcome`
  giving the outcome of each attempt; the function returns the result
  together with the list of backoff waits (in ms) it performed, and the
  validators return their result together with the list of feedback strings
  passed to `retryFn` (the instrumentation needed to state the retry-count
  and backoff claims).
-/

namespace Casus

/-- JSON values (the result of the host `JSON.parse`). -/
inductive Json where
  | null : Json
  | bool : Bool → Json
  | num : Rat → Json
  | str : String → Json
  | arr : List Json → Json
  | obj : List (String × Json) → Json

/-- Zod's `getParsedType`, used in invalid-type messages. -/
def Json.typeName : Json → String
  | .null => "null"
  | .bool _ => "boolean"
  | .num _ => "number"
  | .str _ => "string"
  | .arr _ => "array"
  | .obj _ => "object"

/-- One Zod issue: a field path and a human-readable message
(`result.error.issues` entries, as consumed at llm.ts:126-128). -/
structure Issue where
  path : List String
  message : String
deriving Repr, DecidableEq

/-- JavaScript property lookup on a parsed JSON object. -/
def getField : List (String × Json) → String → Option Json
  | [], _ => none
  | (k, v) :: rest, key => if k = key then some v else getField rest key

/-- The `deviationType` closed enumeration of `ClauseDeviationSchema`
(types/index.ts:26). -/
inductive DeviationType where
  | missing | weaker | stronger | different | ok
deriving Repr, DecidableEq

def DeviationType.toStr : DeviationType → String
  | .missing => "missing"
  | .weaker => "weaker"
  | .stronger => "stronger"
  | .different => "different"
  | .ok => "ok"

def DeviationType.ofStr : String → Option DeviationType := fun s =>
  if s = "missing" then some .missing
  else if s = "weaker" then some .weaker
  else if s = "stronger" then some .stronger
  else if s = "different" then some .different
  else if s = "ok" then some .ok
  else none

/-- The `severity` closed enumeration of both schemas (types/index.ts:27,74). -/
inductive Severity where
  | critical | major | minor | info
deriving Repr, DecidableEq

def Severity.toStr : Severity → String
  | .critical => "critical"
  | .major => "major"
  | .minor => "minor"
  | .info => "info"

def Severity.ofStr : String → Option Severity := fun s =>
  if s = "critical" then some .critical
  else if s = "major" then some .major
  else if s = "minor" then some .minor
  else if s = "info" then some .info
  else none

/-- The `riskCategory` closed enumeration of `RiskFindingSchema`
(types/index.ts:62-73). -/
inductive RiskCategory where
  | liability | termination | intellectual_property | confidentiality
  | payment | data_protection | governing_law | indemnification
  | non_compete | general
deriving Repr, DecidableEq

def RiskCategory.toStr : RiskCategory → String
  | .liability => "liability"
  | .termination => "termination"
  | .intellectual_property => "intellectual_property"
  | .confidentiality => "confidentiality"
  | .payment => "payment"
  | .data_protection => "data_protection"
  | .governing_law => "governing_law"
  | .indemnification => "indemnification"
  | .non_compete => "non_compete"
  | .general => "general"

def RiskCategory.ofStr : String → Option RiskCategory := fun s =>
  if s = "liability" then some .liability
  else if s = "termination" then some .termination
  else if s = "intellectual_property" then some .intellectual_property
  else if s = "confidentiality" then some .confidentiality
  else if s = "payment" then some .payment
  else if s = "data_protection" then some .data_protection
  else if s = "governing_law" then some .governing_law
  else if s = "indemnification" then some .indemnification
  else if s = "non_compete" then some .non_compete
  else if s = "general" then some .general
  else none

/-- `ClauseDeviation` (types/index.ts:22-33). -/
structure ClauseDeviation where
  clauseTitle : String
  documentExcerpt : String
  standardExcerpt : String
  deviationType : DeviationType
  severity : Severity
  explanation : String
  suggestedFix : Option String
  locationHint : String
deriving Repr, DecidableEq

/-- `BenchmarkResult` (types/index.ts:35-43). -/
structure BenchmarkResult where
  alignmentScore : Rat
  totalClauses : Rat
  deviations : List ClauseDeviation
  summary : String
  playbook : String
deriving Repr, DecidableEq

/-- `RiskFinding` (types/index.ts:60-81). -/
structure RiskFinding where
  title : String
  riskCategory : RiskCategory
  severity : Severity
  documentExcerpt : String
  explanation : String
  suggestedAlternative : Option String
  locationHint : String
deriving Repr, DecidableEq

/-- `ReviewResult` (types/index.ts:84-92). -/
structure ReviewResult where
  riskScore : Rat
  totalFindings : Rat
  findings : List RiskFinding
  summary : String
  documentType : String
deriving Repr, DecidableEq

/-! ### Zod safeParse, field by field

Zod default messages: missing key → `Required`; wrong type →
`Expected <type>, received <type>`; `.min(0)` / `.max(100)` →
`Number must be greater than or equal to 0` /
`Number must be less than or equal to 100`; `z.enum` on an out-of-set
string → `Invalid enum value. Expected <options>, received <value>`.
All issues are collected: every key of an object is checked and every
element of an array is checked, in shape / index order. -/

def errsOf {α : Type} : Except (List Issue) α → List Issue
  | .ok _ => []
  | .error e => e

/-- `z.string()` on a (possibly absent) object field. -/
def parseStringField (path : List String) (v : Option Json) :
    Except (List Issue) String :=
  match v with
  | none => .error [⟨path, "Required"⟩]
  | some (.str s) => .ok s
  | some j => .error [⟨path, "Expected string, received " ++ j.typeName⟩]

/-- `z.string().optional()` on a (possibly absent) object field. -/
def parseOptStringField (path : List String) (v : Option Json) :
    Except (List Issue) (Option String) :=
  match v with
  | none => .ok none
  | some (.str s) => .ok (some s)
  | some j => .error [⟨path, "Expected string, received " ++ j.typeName⟩]

/-- `z.number()` on a (possibly absent) object field. -/
def parseNumberField (path : List String) (v : Option Json) :
    Except (List Issue) Rat :=
  match v with
  | none => .error [⟨path, "Required"⟩]
  | some (.num q) => .ok q
  | some j => .error [⟨path, "Expected number, received " ++ j.typeName⟩]

/-- `z.number().min(0).max(100)` on a (possibly absent) object field
(`alignmentScore`, `riskScore`). Both range checks run and their issues
are collected in order. -/
def parseScoreField (path : List String) (v : Option Json) :
    Except (List Issue) Rat :=
  match v with
  | none => .error [⟨path, "Required"⟩]
  | some (.num q) =>
      let issues :=
        (if q < 0 then [Issue.mk path ("Number must be greater than or equal to 0")] else []) ++
        (if 100 < q then [Issue.mk path ("Number must be less than or equal to 100")] else [])
      if issues = [] then .ok q else .error issues
  | some j => .error [⟨path, "Expected number, received " ++ j.typeName⟩]

def deviationTypeExpected : String :=
  "\x27missing\x27 | \x27weaker\x27 | \x27stronger\x27 | \x27different\x27 | \x27ok\x27"

def severityExpected : String :=
  "\x27critical\x27 | \x27major\x27 | \x27minor\x27 | \x27info\x27"

def riskCategoryExpected : String :=
  "\x27liability\x27 | \x27termination\x27 | \x27intellectual_property\x27 | \x27confidentiality\x27 | \x27payment\x27 | \x27data_protection\x27 | \x27governing_law\x27 | \x27indemnification\x27 | \x27non_compete\x27 | \x27general\x27"

/-- `z.enum([...])` for `deviationType`. -/
def parseDeviationTypeField (path : List String) (v : Option Json) :
    Except (List Issue) DeviationType :=
  match v with
  | none => .error [⟨path, "Required"⟩]
  | some (.str s) =>
      match DeviationType.ofStr s with
      | some d => .ok d
      | none => .error [⟨path, "Invalid enum value. Expected " ++ deviationTypeExpected
          ++ ", received \x27" ++ s ++ "\x27"⟩]
  | some j => .error [⟨path, "Expected " ++ deviationTypeExpected ++ ", received " ++ j.typeName⟩]

/-- `z.enum([...])` for `severity`. -/
def parseSeverityField (path : List String) (v : Option Json) :
    Except (List Issue) Severity :=
  match v with
  | none => .error [⟨path, "Required"⟩]
  | some (.str s) =>
      match Severity.ofStr s with
      | some d => .ok d
      | none => .error [⟨path, "Invalid enum value. Expected " ++ severityExpected
          ++ ", received \x27" ++ s ++ "\x27"⟩]
  | some j => .error [⟨path, "Expected " ++ severityExpected ++ ", received " ++ j.typeName⟩]

/-- `z.enum([...])` for `riskCategory`. -/
def parseRiskCategoryField (path : List String) (v : Option Json) :
    Except (List Issue) RiskCategory :=
  match v with
  | none => .error [⟨path, "Required"⟩]
  | some (.str s) =>
      match RiskCategory.ofStr s with
      | some d => .ok d
      | none => .error [⟨path, "Invalid enum value. Expected " ++ riskCategoryExpected
          ++ ", received \x27" ++ s ++ "\x27"⟩]
  | some j => .error [⟨path, "Expected " ++ riskCategoryExpected ++ ", received " ++ j.typeName⟩]

/-- `ClauseDeviationSchema.safeParse`, issues collected in shape order. -/
def parseClauseDeviation (path : List String) (j : Json) :
    Except (List Issue) ClauseDeviation :=
  match j with
  | .obj fields =>
      let e1 := parseStringField (path ++ ["clauseTitle"]) (getField fields ("clauseTitle"))
      let e2 := parseStringField (path ++ ["documentExcerpt"]) (getField fields ("documentExcerpt"))
      let e3 := parseStringField (path ++ ["standardExcerpt"]) (getField fields ("standardExcerpt"))
      let e4 := parseDeviationTypeField (path ++ ["deviationType"]) (getField fields ("deviationType"))
      let e5 := parseSeverityField (path ++ ["severity"]) (getField fields ("severity"))
      let e6 := parseStringField (path ++ ["explanation"]) (getField fields ("explanation"))
      let e7 := parseOptStringField (path ++ ["suggestedFix"]) (getField fields ("suggestedFix"))
      let e8 := parseStringField (path ++ ["locationHint"]) (getField fields ("locationHint"))
      match e1, e2, e3, e4, e5, e6, e7, e8 with
      | .ok a, .ok b, .ok c, .ok d, .ok e, .ok f, .ok g, .ok h =>
          .ok ⟨a, b, c, d, e, f, g, h⟩
      | _, _, _, _, _, _, _, _ =>
          .error (errsOf e1 ++ errsOf e2 ++ errsOf e3 ++ errsOf e4 ++ errsOf e5
            ++ errsOf e6 ++ errsOf e7 ++ errsOf e8)
  | _ => .error [⟨path, "Expected object, received " ++ j.typeName⟩]

/-- `RiskFindingSchema.safeParse`, issues collected in shape order. -/
def parseRiskFinding (path : List String) (j : Json) :
    Except (List Issue) RiskFinding :=
  match j with
  | .obj fields =>
      let e1 := parseStringField (path ++ ["title"]) (getField fields ("title"))
      let e2 := parseRiskCategoryField (path ++ ["riskCategory"]) (getField fields ("riskCategory"))
      let e3 := parseSeverityField (path ++ ["severity"]) (getField fields ("severity"))
      let e4 := parseStringField (path ++ ["documentExcerpt"]) (getField fields ("documentExcerpt"))
      let e5 := parseStringField (path ++ ["explanation"]) (getField fields ("explanation"))
      let e6 := parseOptStringField (path ++ ["suggestedAlternative"]) (getField fields ("suggestedAlternative"))
      let e7 := parseStringField (path ++ ["locationHint"]) (getField fields ("locationHint"))
      match e1, e2, e3, e4, e5, e6, e7 with
      | .ok a, .ok b, .ok c, .ok d, .ok e, .ok f, .ok g =>
          .ok ⟨a, b, c, d, e, f, g⟩
      | _, _, _, _, _, _, _ =>
          .error (errsOf e1 ++ errsOf e2 ++ errsOf e3 ++ errsOf e4 ++ errsOf e5
            ++ errsOf e6 ++ errsOf e7)
  | _ => .error [⟨path, "Expected object, received " ++ j.typeName⟩]

/-- `z.array(elem)`: every element is validated, issues collected in index
order, the index becoming a path component. -/
def parseArrayElems {α : Type} (f : List String → Json → Except (List Issue) α)
    (path : List String) : Nat → List Json → Except (List Issue) (List α)
  | _, [] => .ok []
  | i, x :: rest =>
      let hd := f (path ++ [Nat.repr i]) x
      let tl := parseArrayElems f path (i + 1) rest
      match hd, tl with
      | .ok a, .ok as => .ok (a :: as)
      | _, _ => .error (errsOf hd ++ errsOf tl)

def parseArrayField {α : Type} (f : List String → Json → Except (List Issue) α)
    (path : List String) (v : Option Json) : Except (List Issue) (List α) :=
  match v with
  | none => .error [⟨path, "Required"⟩]
  | some (.arr xs) => parseArrayElems f path 0 xs
  | some j => .error [⟨path, "Expected array, received " ++ j.typeName⟩]

/-- `BenchmarkResultSchema.safeParse` (types/index.ts:35-41): shape order
`alignmentScore`, `totalClauses`, `deviations`, `summary`, `playbook`.
Unknown keys are stripped, as Zod does by default. -/
def benchmarkSafeParse (j : Json) : Except (List Issue) BenchmarkResult :=
  match j with
  | .obj fields =>
      let e1 := parseScoreField ["alignmentScore"] (getField fields ("alignmentScore"))
      let e2 := parseNumberField ["totalClauses"] (getField fields ("totalClauses"))
      let e3 := parseArrayField parseClauseDeviation ["deviations"] (getField fields ("deviations"))
      let e4 := parseStringField ["summary"] (getField fields ("summary"))
      let e5 := parseStringField ["playbook"] (getField fields ("playbook"))
      match e1, e2, e3, e4, e5 with
      | .ok a, .ok b, .ok c, .ok d, .ok e => .ok ⟨a, b, c, d, e⟩
      | _, _, _, _, _ =>
          .error (errsOf e1 ++ errsOf e2 ++ errsOf e3 ++ errsOf e4 ++ errsOf e5)
  | _ => .error [⟨[], "Expected object, received " ++ j.typeName⟩]

/-- `ReviewResultSchema.safeParse` (types/index.ts:84-90): shape order
`riskScore`, `totalFindings`, `findings`, `summary`, `documentType`. -/
def reviewSafeParse (j : Json) : Except (List Issue) ReviewResult :=
  match j with
  | .obj fields =>
      let e1 := parseScoreField ["riskScore"] (getField fields ("riskScore"))
      let e2 := parseNumberField ["totalFindings"] (getField fields ("totalFindings"))
      let e3 := parseArrayField parseRiskFinding ["findings"] (getField fields ("findings"))
      let e4 := parseStringField ["summary"] (getField fields ("summary"))
      let e5 := parseStringField ["documentType"] (getField fields ("documentType"))
      match e1, e2, e3, e4, e5 with
      | .ok a, .ok b, .ok c, .ok d, .ok e => .ok ⟨a, b, c, d, e⟩
      | _, _, _, _, _ =>
          .error (errsOf e1 ++ errsOf e2 ++ errsOf e3 ++ errsOf e4 ++ errsOf e5)
  | _ => .error [⟨[], "Expected object, received " ++ j.typeName⟩]

/-! ### Raw generation output and the generation client -/

/-- RawGenerationOutput: the literal text returned by the LLM together with
the result of the host runtime's `JSON.parse` on it (`none` when the text is
not syntactically valid JSON). -/
structure Raw where
  text : String
  parsed : Option Json

/-- A raw output produced by `JSON.stringify` of a structured value:
`JSON.stringify` always yields text that `JSON.parse` maps back to the
same JSON value, so the serialize-then-parse composition is modelled
directly.  The literal text itself is read by no code path once parsing
succeeds (only the invalid-JSON error excerpts it). -/
def Raw.ofJson (j : Json) : Raw :=
  { text := "", parsed := some j }

/-- Errors thrown by the OpenAI client, classified the way `callLLM`
classifies them by `instanceof` (llm.ts:55-57): `RateLimitError`,
`APIConnectionTimeoutError`, `InternalServerError`, or anything else
(carrying its `message`). -/
inductive LLMError where
  | rateLimit : String → LLMError
  | connectionTimeout : String → LLMError
  | internalServer : String → LLMError
  | other : String → LLMError
deriving Repr, DecidableEq

def LLMError.message : LLMError → String
  | .rateLimit m => m
  | .connectionTimeout m => m
  | .internalServer m => m
  | .other m => m

/-- `isRetryable` (llm.ts:55-57): rate limit, connection timeout or internal
server error. -/
def LLMError.isRetryable : LLMError → Bool
  | .rateLimit _ => true
  | .connectionTimeout _ => true
  | .internalServer _ => true
  | .other _ => false

/-- Outcome of one attempt of the remote chat-completion call:
either it completes with `choices[0]?.message?.content` (which may be
absent or the empty string), or it throws a classified error. -/
inductive CallOutcome where
  | ok : Option String → CallOutcome
  | err : LLMError → CallOutcome

def MAX_RETRIES : Nat := 3

def BASE_DELAY_MS : Nat := 1000

/-- The error text thrown at llm.ts:68-70 (also reached when the
`LLM returned empty response` error thrown inside the `try` is caught and
re-wrapped, since a plain `Error` is not retryable). -/
def apiFailMsg (attempt : Nat) (cause : String) : String :=
  "LLM API call failed after " ++ Nat.repr attempt ++ " attempt(s): " ++ cause

/-- The retry loop of `callLLM` (llm.ts:34-74), in real (non-mock) mode.
`oracle n` is the outcome of the n-th attempt of the remote call.  The
fuel argument counts the loop iterations still allowed by
`attempt <= MAX_RETRIES`; the fuel-0 result is the (unreachable)
`throw` after the loop (llm.ts:74).  Returns the result together with the
list of backoff waits performed, in order and in milliseconds. -/
def callLLMAttempts (oracle : Nat → CallOutcome) :
    Nat → Nat → Except String String × List Nat
  | 0, _ => (.error "LLM call exhausted all retries", [])
  | fuel + 1, attempt =>
      match oracle attempt with
      | .ok content =>
          match content with
          | some s =>
              if s = "" then (.error (apiFailMsg attempt "LLM returned empty response"), [])
              else (.ok s, [])
          | none => (.error (apiFailMsg attempt "LLM returned empty response"), [])
      | .err e =>
          if e.isRetryable ∧ attempt < MAX_RETRIES then
            let delay := BASE_DELAY_MS * 2 ^ (attempt - 1)
            let r := callLLMAttempts oracle fuel (attempt + 1)
            (r.1, delay :: r.2)
          else (.error (apiFailMsg attempt e.message), [])

/-- `callLLM` (llm.ts:22-75) in real mode: up to `MAX_RETRIES` attempts
starting at attempt 1. -/
def callLLM (oracle : Nat → CallOutcome) : Except String String × List Nat :=
  callLLMAttempts oracle MAX_RETRIES 1

/-! ### Output validators (llm.ts:102-209) -/

/-- Feedback sent to `retryFn` after a JSON syntax failure (llm.ts:115-117). -/
def syntaxFeedback : String :=
  "Your previous response was not valid JSON. Return ONLY valid JSON matching the schema. Error: invalid JSON syntax."

/-- Feedback sent to `retryFn` after a schema failure (llm.ts:132-134). -/
def schemaFeedback (errors : String) : String :=
  "Your previous response had validation errors: " ++ errors
    ++ ". Fix these issues and return valid JSON matching the required schema."

/-- Terminal error for unparseable JSON (llm.ts:120). -/
def invalidJsonError (text : String) : String :=
  "LLM returned invalid JSON: " ++ text.take 200 ++ "..."

/-- Terminal error for a schema failure (llm.ts:137). -/
def failedValidationError (errors : String) : String :=
  "LLM output failed validation: " ++ errors

/-- The joined diagnostics string (llm.ts:126-128):
`issues.map(i => i.path.join(".") + ": " + i.message).join("; ")`. -/
def issueLine (i : Issue) : String :=
  String.intercalate "." i.path ++ ": " ++ i.message

def joinIssues (issues : List Issue) : String :=
  String.intercalate "; " (issues.map issueLine)

/-- The `for (attempt = 1; attempt <= 2; attempt++)` loop of
`validateBenchmarkOutput` (llm.ts:102-144).  `retryFn fb` is the raw output
of the corrective re-generation for feedback `fb`.  The fuel argument counts
remaining loop iterations (2 at entry); the fuel-0 result is the
(unreachable) `throw` after the loop (llm.ts:143).  Returns the result
together with the list of feedback strings passed to `retryFn`, in order. -/
def validateBenchmarkLoop (retryFn : Option (String → Raw)) :
    Nat → Nat → Raw → Except String BenchmarkResult × List String
  | 0, _, _ => (.error "Validation exhausted all retries", [])
  | fuel + 1, attempt, currentRaw =>
      if attempt ≤ 2 then
        match currentRaw.parsed with
        | none =>
            match (if attempt = 1 then retryFn else none) with
            | some f =>
                let r := validateBenchmarkLoop retryFn fuel (attempt + 1) (f syntaxFeedback)
                (r.1, syntaxFeedback :: r.2)
            | none => (.error (invalidJsonError currentRaw.text), [])
        | some j =>
            match benchmarkSafeParse j with
            | .ok data => (.ok data, [])
            | .error issues =>
                let errors := joinIssues issues
                match (if attempt = 1 then retryFn else none) with
                | some f =>
                    let fb := schemaFeedback errors
                    let r := validateBenchmarkLoop retryFn fuel (attempt + 1) (f fb)
                    (r.1, fb :: r.2)
                | none => (.error (failedValidationError errors), [])
      else (.error "Validation exhausted all retries", [])

/-- `validateBenchmarkOutput` (llm.ts:102-144). -/
def validateBenchmarkOutput (raw : Raw) (retryFn : Option (String → Raw)) :
    Except String BenchmarkResult × List String :=
  validateBenchmarkLoop retryFn 2 1 raw

/-- The identical loop of `validateReviewOutput` (llm.ts:167-209), against
`ReviewResultSchema`. -/
def validateReviewLoop (retryFn : Option (String → Raw)) :
    Nat → Nat → Raw → Except String ReviewResult × List String
  | 0, _, _ => (.error "Review validation exhausted all retries", [])
  | fuel + 1, attempt, currentRaw =>
      if attempt ≤ 2 then
        match currentRaw.parsed with
        | none =>
            match (if attempt = 1 then retryFn else none) with
            | some f =>
                let r := validateReviewLoop retryFn fuel (attempt + 1) (f syntaxFeedback)
                (r.1, syntaxFeedback :: r.2)
            | none => (.error (invalidJsonError currentRaw.text), [])
        | some j =>
            match reviewSafeParse j with
            | .ok data => (.ok data, [])
            | .error issues =>
                let errors := joinIssues issues
                match (if attempt = 1 then retryFn else none) with
                | some f =>
                    let fb := schemaFeedback errors
                    let r := validateReviewLoop retryFn fuel (attempt + 1) (f fb)
                    (r.1, fb :: r.2)
                | none => (.error (failedValidationError errors), [])
      else (.error "Review validation exhausted all retries", [])

/-- `validateReviewOutput` (llm.ts:167-209). -/
def validateReviewOutput (raw : Raw) (retryFn : Option (String → Raw)) :
    Except String ReviewResult × List String :=
  validateReviewLoop retryFn 2 1 raw

/-! ### Prompt engine (promptEngine.ts) -/

/-- `PromptPair` (promptEngine.ts). -/
structure PromptPair where
  systemPrompt : String
  userPrompt : String
deriving Repr, DecidableEq

/-- The `importance` union type of `PlaybookClause` (types/index.ts:112). -/
inductive Importance where
  | critical | major | minor
deriving Repr, DecidableEq

def Importance.toStr : Importance → String
  | .critical => "critical"
  | .major => "major"
  | .minor => "minor"

/-- `PlaybookClause` (types/index.ts:109-113). -/
structure PlaybookClause where
  title : String
  standardText : String
  importance : Importance
deriving Repr, DecidableEq

/-- `Playbook` (types/index.ts:100-105). -/
structure Playbook where
  id : String
  name : String
  description : String
  clauses : List PlaybookClause
deriving Repr, DecidableEq

/-- One entry of `clauseList` in `buildBenchmarkPrompt` (promptEngine.ts):
`### Standard Clause ${i+1}: ${title} [importance: ${importance}]\n${standardText}`. -/
def clauseEntry (i : Nat) (c : PlaybookClause) : String :=
  "### Standard Clause " ++ Nat.repr (i + 1) ++ ": " ++ c.title
    ++ " [importance: " ++ c.importance.toStr ++ "]\n" ++ c.standardText

/-! The system-prompt template of `buildBenchmarkPrompt`, transcribed
verbatim and split into pieces small enough for kernel evaluation
(braces written `\x7b`/`\x7d` and apostrophes `\x27`; the concatenation
of the pieces is the exact template text). -/

def sysPre1 : String :=
  "You are a legal contract analyst specializing in DACH (Germany, Austria, Switzerland) law.\nYour task is to benchmark a contract against a defined standard (playbook).\n\nINSTRUCTIONS:\n1. Compare the document clause-by-clause against each standard clause below.\n2. For each standard clause, determine if the document:\n   - \"ok\" — matches the standard or"

def sysPre2 : String :=
  " is equivalent\n   - \"missing\" — the clause is entirely absent from the document\n   - \"weaker\" — present but offers less protection than the standard\n   - \"stronger\" — present but more restrictive than the standard\n   - \"different\" — present but takes a materially different approach\n3. Assign severity: \"critical\", \"major\", \"minor\", or \"info\"\n4. Prov"

def sysPre3 : String :=
  "ide a brief explanation of the deviation\n5. Suggest a fix when the deviation is \"missing\", \"weaker\", or \"different\"\n6. Include a locationHint — quote 5-10 words from the document where the clause appears (or \"Not found in document\" if missing)\n\nSTANDARD PLAYBOOK: \""

def sysMid1 : String :=
  "\n\nOUTPUT FORMAT (strict JSON):\n\x7b\n  \"alignmentScore\": <number 0-100>,\n  \"totalClauses\": "

def sysMid2 : String :=
  ",\n  \"playbook\": \""

def sysPost1 : String :=
  "\",\n  \"summary\": \"<2-3 sentence overall assessment>\",\n  \"deviations\": [\n    \x7b\n      \"clauseTitle\": \"<title from standard>\",\n      \"documentExcerpt\": \"<relevant text from the document, or \x27N/A\x27>\",\n      \"standardExcerpt\": \"<text from the standard>\",\n      \"deviationType\": \"<missing|weaker|stronger|different|ok>\",\n      \"severity\": \"<critical|major|mi"

def sysPost2 : String :=
  "nor|info>\",\n      \"explanation\": \"<why this matters>\",\n      \"suggestedFix\": \"<suggested replacement text or null>\",\n      \"locationHint\": \"<5-10 word quote from document>\"\n    \x7d\n  ]\n\x7d\n\nIMPORTANT: Return ONLY valid JSON. No markdown, no code fences, no explanation outside the JSON."

def userPre : String := "Analyze the following contract against the \""

def userMid : String := "\" standard:\n\n---\nDOCUMENT:\n"

/-- `buildBenchmarkPrompt` (promptEngine.ts:22-77).  String append is
associative; the concatenation is written right-nested. -/
def buildBenchmarkPrompt (documentText : String) (playbook : Playbook) : PromptPair :=
  let clauseList := String.intercalate "\n\n"
    ((List.enum playbook.clauses).map (fun p => clauseEntry p.1 p.2))
  { systemPrompt :=
      sysPre1 ++ (sysPre2 ++ (sysPre3 ++ (playbook.name ++ ("\"\n" ++ (clauseList ++
        (sysMid1 ++ (Nat.repr playbook.clauses.length ++ (sysMid2 ++ (playbook.name ++
          (sysPost1 ++ sysPost2)))))))))),
    userPrompt :=
      userPre ++ (playbook.name ++ (userMid ++ (documentText ++ "\n---"))) }

/-! ### Route-level orchestration (routes, part_000) -/

/-- The prefix appended before error feedback in the corrective retry of
both route handlers (`\n\nIMPORTANT CORRECTION: ${errorFeedback}`). -/
def correctionNote : String := "\n\nIMPORTANT CORRECTION: "

/-- The corrected prompt the route's `retryFn` sends: a new `PromptPair`
with the same system prompt and the feedback appended to the user prompt. -/
def mkCorrected (prompt : PromptPair) (fb : String) : PromptPair :=
  { systemPrompt := prompt.systemPrompt,
    userPrompt := prompt.userPrompt ++ correctionNote ++ fb }

/-- Steps 4-5 of `POST /api/benchmark`: call the generator on the prompt,
then validate with a `retryFn` that re-generates on the corrected prompt.
`gen` maps the prompt actually sent to the raw output received.  Returns
the result together with the transcript of prompts `gen` was invoked on,
in order (the first element is the initial call, llm.ts's `callLLM`; each
further element is one corrective `retryFn` call). -/
def benchmarkPipeline (gen : PromptPair → Raw) (prompt : PromptPair) :
    Except String BenchmarkResult × List PromptPair :=
  let raw := gen prompt
  let r := validateBenchmarkOutput raw (some (fun fb => gen (mkCorrected prompt fb)))
  (r.1, prompt :: r.2.map (mkCorrected prompt))

/-- Steps 3-4 of `POST /api/review`, same pattern against the review
validator. -/
def reviewPipeline (gen : PromptPair → Raw) (prompt : PromptPair) :
    Except String ReviewResult × List PromptPair :=
  let raw := gen prompt
  let r := validateReviewOutput raw (some (fun fb => gen (mkCorrected prompt fb)))
  (r.1, prompt :: r.2.map (mkCorrected prompt))

/-- The full benchmark route flow from prompt building on:
`buildBenchmarkPrompt` then generate-validate-retry. -/
def benchmarkRoute (gen : PromptPair → Raw) (documentText : String)
    (playbook : Playbook) : Except String BenchmarkResult × List PromptPair :=
  benchmarkPipeline gen (buildBenchmarkPrompt documentText playbook)

/-! ### Outcome classifiers

These three functions restate what one validation attempt does to a raw
output; they are the vocabulary in which the orchestration theorems are
stated and are definitionally tied to the loop above. -/

/-- The feedback a failed first validation attempt sends to `retryFn`
(`none` when the raw output validates). -/
def benchFeedback (r : Raw) : Option String :=
  match r.parsed with
  | none => some syntaxFeedback
  | some j =>
      match benchmarkSafeParse j with
      | .error issues => some (schemaFeedback (joinIssues issues))
      | .ok _ => none

/-- The terminal error a failed second validation attempt throws
(`none` when the raw output validates). -/
def benchTerminalError (r : Raw) : Option String :=
  match r.parsed with
  | none => some (invalidJsonError r.text)
  | some j =>
      match benchmarkSafeParse j with
      | .error issues => some (failedValidationError (joinIssues issues))
      | .ok _ => none

/-- The validated result of a raw output (`none` when it fails). -/
def benchSuccess (r : Raw) : Option BenchmarkResult :=
  match r.parsed with
  | none => none
  | some j =>
      match benchmarkSafeParse j with
      | .error _ => none
      | .ok d => some d

/-- Review counterpart of `benchFeedback`. -/
def reviewFeedback (r : Raw) : Option String :=
  match r.parsed with
  | none => some syntaxFeedback
  | some j =>
      match reviewSafeParse j with
      | .error issues => some (schemaFeedback (joinIssues issues))
      | .ok _ => none

/-- Review counterpart of `benchTerminalError`. -/
def reviewTerminalError (r : Raw) : Option String :=
  match r.parsed with
  | none => some (invalidJsonError r.text)
  | some j =>
      match reviewSafeParse j with
      | .error issues => some (failedValidationError (joinIssues issues))
      | .ok _ => none

/-- Review counterpart of `benchSuccess`. -/
def reviewSuccess (r : Raw) : Option ReviewResult :=
  match r.parsed with
  | none => none
  | some j =>
      match reviewSafeParse j with
      | .error _ => none
      | .ok d => some d

/-! ### JSON serialization of structured payloads -/

/-- The JSON value `JSON.stringify` serializes a `ClauseDeviation` to
(an absent `suggestedFix`, like `undefined` in JS, is omitted). -/
def devToJson (d : ClauseDeviation) : Json :=
  .obj ([("clauseTitle", .str d.clauseTitle),
         ("documentExcerpt", .str d.documentExcerpt),
         ("standardExcerpt", .str d.standardExcerpt),
         ("deviationType", .str d.deviationType.toStr),
         ("severity", .str d.severity.toStr),
         ("explanation", .str d.explanation)]
    ++ (match d.suggestedFix with
        | some s => [("suggestedFix", Json.str s)]
        | none => [])
    ++ [("locationHint", .str d.locationHint)])

/-- The JSON value `JSON.stringify` serializes a `BenchmarkResult` to. -/
def benchmarkToJson (b : BenchmarkResult) : Json :=
  .obj [("alignmentScore", .num b.alignmentScore),
        ("totalClauses", .num b.totalClauses),
        ("deviations", .arr (b.deviations.map devToJson)),
        ("summary", .str b.summary),
        ("playbook", .str b.playbook)]

/-- The JSON value `JSON.stringify` serializes a `RiskFinding` to. -/
def findingToJson (f : RiskFinding) : Json :=
  .obj ([("title", .str f.title),
         ("riskCategory", .str f.riskCategory.toStr),
         ("severity", .str f.severity.toStr),
         ("documentExcerpt", .str f.documentExcerpt),
         ("explanation", .str f.explanation)]
    ++ (match f.suggestedAlternative with
        | some s => [("suggestedAlternative", Json.str s)]
        | none => [])
    ++ [("locationHint", .str f.locationHint)])

/-- The JSON value `JSON.stringify` serializes a `ReviewResult` to. -/
def reviewToJson (v : ReviewResult) : Json :=
  .obj [("riskScore", .num v.riskScore),
        ("totalFindings", .num v.totalFindings),
        ("findings", .arr (v.findings.map findingToJson)),
        ("summary", .str v.summary),
        ("documentType", .str v.documentType)]

/-! ### Lemmas about the generation client -/

theorem callLLMAttempts_ok_ne_empty (g : Nat → CallOutcome) :
    ∀ fuel attempt s, (callLLMAttempts g fuel attempt).1 = Except.ok s → s ≠ "" := by
  intro fuel
  induction fuel with
  | zero => intro attempt s h; simp [callLLMAttempts] at h
  | succ n ih =>
      intro attempt s h
      simp only [callLLMAttempts] at h
      rcases hg : g attempt with c | e <;> rw [hg] at h
      · rcases c with _ | s'
        · simp at h
        · by_cases hs : s' = ""
          · simp [hs] at h
          · simp [hs] at h
            exact h ▸ hs
      · by_cases hr : (e.isRetryable : Prop) ∧ attempt < MAX_RETRIES
        · simp only [if_pos hr] at h
          exact ih (attempt + 1) s h
        · simp [if_neg hr] at h

theorem callLLMAttempts_congr (g g' : Nat → CallOutcome) :
    ∀ fuel attempt, (∀ n, attempt ≤ n → n < attempt + fuel → g n = g' n) →
      callLLMAttempts g fuel attempt = callLLMAttempts g' fuel attempt := by
  intro fuel
  induction fuel with
  | zero => intro attempt _; rfl
  | succ n ih =>
      intro attempt h
      have h1 : g attempt = g' attempt := h attempt le_rfl (by omega)
      simp only [callLLMAttempts, ← h1]
      rcases hg : g attempt with c | e
      · rfl
      · have hrec : callLLMAttempts g n (attempt + 1) = callLLMAttempts g' n (attempt + 1) :=
          ih (attempt + 1) (fun m hm1 hm2 => h m (by omega) (by omega))
        simp only [hrec]

/-- Claim C3: if the remote call raises a retryable error on attempts 1 and 2
and succeeds on attempt 3 with non-empty content, `callLLM` returns the
successful output after exactly two backoff waits of 1000 ms then 2000 ms
(`baseDelay * 2^0`, `baseDelay * 2^1`), in that order; and the whole run
only ever consults attempts 1 to 3, so at most 3 attempts are made. -/
theorem claim3_retry_backoff :
    (∀ (g : Nat → CallOutcome) (e1 e2 : LLMError) (s : String),
      g 1 = CallOutcome.err e1 → e1.isRetryable = true →
      g 2 = CallOutcome.err e2 → e2.isRetryable = true →
      g 3 = CallOutcome.ok (some s) → s ≠ "" →
      callLLM g = (Except.ok s, [1000, 2000])) ∧
    (∀ g g' : Nat → CallOutcome, (∀ n, 1 ≤ n → n ≤ 3 → g n = g' n) →
      callLLM g = callLLM g') := by
  constructor
  · intro g e1 e2 s h1 hr1 h2 hr2 h3 hs
    simp [callLLM, callLLMAttempts, h1, h2, h3, hr1, hr2, hs, MAX_RETRIES, BASE_DELAY_MS]
  · intro g g' h
    refine callLLMAttempts_congr g g' MAX_RETRIES 1 (fun n hn1 hn2 => h n hn1 ?_)
    simp [MAX_RETRIES] at hn2
    omega

/-- Witness for C3 at a concrete oracle: rate-limited twice, then success;
and the result is unchanged when the oracle is modified beyond attempt 3. -/
theorem claim3_retry_backoff_witness :
    callLLM (fun n => if n = 1 then .err (.rateLimit ("rl1"))
      else if n = 2 then .err (.internalServer ("ise"))
      else .ok (some ("out"))) = (Except.ok ("out"), [1000, 2000]) ∧
    callLLM (fun _ => CallOutcome.ok (some ("hi"))) =
      callLLM (fun n => if n ≤ 3 then .ok (some ("hi")) else .ok none) :=
  ⟨claim3_retry_backoff.1 _ (.rateLimit ("rl1")) (.internalServer ("ise")) ("out")
    (by rfl) (by rfl) (by rfl) (by rfl) (by rfl) (by decide),
   claim3_retry_backoff.2 _ _ (fun n h1 h2 => by simp [h2])⟩

/-- Claim C6: a non-retryable error (anything that is not a rate limit,
connection timeout or internal server error) on the first attempt makes
`callLLM` fail immediately — no backoff wait, no further attempt (the
result depends only on attempt 1) — with an error embedding the attempt
count 1 and the cause's message. -/
theorem claim6_nonretryable_fails_fast :
    ∀ (g : Nat → CallOutcome) (m : String), g 1 = CallOutcome.err (.other m) →
      callLLM g = (Except.error ("LLM API call failed after 1 attempt(s): " ++ m), []) ∧
      (∀ g' : Nat → CallOutcome, g' 1 = g 1 → callLLM g' = callLLM g) := by
  intro g m h1
  have key : ∀ g'' : Nat → CallOutcome, g'' 1 = CallOutcome.err (.other m) →
      callLLM g'' = (Except.error ("LLM API call failed after 1 attempt(s): " ++ m), []) := by
    intro g'' h
    simp [callLLM, callLLMAttempts, h, MAX_RETRIES, LLMError.isRetryable,
      apiFailMsg, LLMError.message]
    exact congrArg (fun x => x ++ m) rfl
  refine ⟨key g h1, fun g' hg' => ?_⟩
  rw [key g h1, key g' (hg'.trans h1)]

/-- Witness for C6 at a concrete oracle: an authentication failure fails
immediately, and later attempts of the oracle are never consulted. -/
theorem claim6_nonretryable_fails_fast_witness :
    callLLM (fun _ => .err (.other ("bad api key"))) =
      (Except.error ("LLM API call failed after 1 attempt(s): bad api key"), []) ∧
    callLLM (fun n => if n = 1 then .err (.other ("bad api key")) else .ok (some ("x"))) =
      callLLM (fun _ => .err (.other ("bad api key"))) :=
  ⟨(claim6_nonretryable_fails_fast (fun _ => .err (.other ("bad api key")))
      ("bad api key") (by rfl)).1,
   (claim6_nonretryable_fails_fast (fun _ => .err (.other ("bad api key")))
      ("bad api key") (by rfl)).2
      (fun n => if n = 1 then .err (.other ("bad api key")) else .ok (some ("x"))) (by rfl)⟩

/-- Claim C9: a successful remote call whose content is missing or empty is
treated by `callLLM` as a failure ("LLM returned empty response"), not
returned as output; and on no oracle does `callLLM` ever return empty text
as a success, so an empty-content response can never reach the validators. -/
theorem claim9_empty_response_is_error :
    (∀ g : Nat → CallOutcome, g 1 = CallOutcome.ok none →
      callLLM g =
        (Except.error ("LLM API call failed after 1 attempt(s): LLM returned empty response"), [])) ∧
    (∀ g : Nat → CallOutcome, g 1 = CallOutcome.ok (some "") →
      callLLM g =
        (Except.error ("LLM API call failed after 1 attempt(s): LLM returned empty response"), [])) ∧
    (∀ (g : Nat → CallOutcome) (s : String), (callLLM g).1 = Except.ok s → s ≠ "") := by
  refine ⟨?_, ?_, ?_⟩
  · intro g h
    simp [callLLM, callLLMAttempts, h, MAX_RETRIES, apiFailMsg]
    rfl
  · intro g h
    simp [callLLM, callLLMAttempts, h, MAX_RETRIES, apiFailMsg]
    rfl
  · intro g s h
    exact callLLMAttempts_ok_ne_empty g MAX_RETRIES 1 s h

/-- Witness for C9 at concrete oracles (missing content and empty string). -/
theorem claim9_empty_response_is_error_witness :
    callLLM (fun _ => .ok none) =
      (Except.error ("LLM API call failed after 1 attempt(s): LLM returned empty response"), []) ∧
    callLLM (fun _ => .ok (some "")) =
      (Except.error ("LLM API call failed after 1 attempt(s): LLM returned empty response"), []) ∧
    "hi" ≠ "" :=
  ⟨claim9_empty_response_is_error.1 (fun _ => .ok none) (by rfl),
   claim9_empty_response_is_error.2.1 (fun _ => .ok (some "")) (by rfl),
   claim9_empty_response_is_error.2.2 (fun _ => .ok (some ("hi"))) ("hi") (by rfl)⟩

/-! ### One-step equations of the validation loops (all definitional) -/

theorem vbLoop2_none (rf : Option (String → Raw)) (t : String) :
    validateBenchmarkLoop rf 1 2 ⟨t, none⟩ = (.error (invalidJsonError t), []) := rfl

theorem vbLoop2_some (rf : Option (String → Raw)) (t : String) (j : Json) :
    validateBenchmarkLoop rf 1 2 ⟨t, some j⟩ =
      (match benchmarkSafeParse j with
       | .ok data => (.ok data, [])
       | .error issues => (.error (failedValidationError (joinIssues issues)), [])) := rfl

theorem vbLoop1_none (rf : Option (String → Raw)) (t : String) :
    validateBenchmarkLoop rf 2 1 ⟨t, none⟩ =
      (match rf with
       | some f =>
           ((validateBenchmarkLoop rf 1 2 (f syntaxFeedback)).1,
             syntaxFeedback :: (validateBenchmarkLoop rf 1 2 (f syntaxFeedback)).2)
       | none => (.error (invalidJsonError t), [])) := rfl

theorem vbLoop1_some (rf : Option (String → Raw)) (t : String) (j : Json) :
    validateBenchmarkLoop rf 2 1 ⟨t, some j⟩ =
      (match benchmarkSafeParse j with
       | .ok data => (.ok data, [])
       | .error issues =>
           match rf with
           | some f =>
               ((validateBenchmarkLoop rf 1 2 (f (schemaFeedback (joinIssues issues)))).1,
                 schemaFeedback (joinIssues issues)
                   :: (validateBenchmarkLoop rf 1 2 (f (schemaFeedback (joinIssues issues)))).2)
           | none => (.error (failedValidationError (joinIssues issues)), [])) := rfl

theorem vrLoop2_none (rf : Option (String → Raw)) (t : String) :
    validateReviewLoop rf 1 2 ⟨t, none⟩ = (.error (invalidJsonError t), []) := rfl

theorem vrLoop2_some (rf : Option (String → Raw)) (t : String) (j : Json) :
    validateReviewLoop rf 1 2 ⟨t, some j⟩ =
      (match reviewSafeParse j with
       | .ok data => (.ok data, [])
       | .error issues => (.error (failedValidationError (joinIssues issues)), [])) := rfl

theorem vrLoop1_none (rf : Option (String → Raw)) (t : String) :
    validateReviewLoop rf 2 1 ⟨t, none⟩ =
      (match rf with
       | some f =>
           ((validateReviewLoop rf 1 2 (f syntaxFeedback)).1,
             syntaxFeedback :: (validateReviewLoop rf 1 2 (f syntaxFeedback)).2)
       | none => (.error (invalidJsonError t), [])) := rfl

theorem vrLoop1_some (rf : Option (String → Raw)) (t : String) (j : Json) :
    validateReviewLoop rf 2 1 ⟨t, some j⟩ =
      (match reviewSafeParse j with
       | .ok data => (.ok data, [])
       | .error issues =>
           match rf with
           | some f =>
               ((validateReviewLoop rf 1 2 (f (schemaFeedback (joinIssues issues)))).1,
                 schemaFeedback (joinIssues issues)
                   :: (validateReviewLoop rf 1 2 (f (schemaFeedback (joinIssues issues)))).2)
           | none => (.error (failedValidationError (joinIssues issues)), [])) := rfl

/-! ### Scenario lemmas for the benchmark validator -/

theorem validateBenchmark_attempt2_err (rf : Option (String → Raw)) (r : Raw) (msg : String)
    (h : benchTerminalError r = some msg) :
    validateBenchmarkLoop rf 1 2 r = (.error msg, []) := by
  obtain ⟨t, p⟩ := r
  rcases p with _ | j
  · have h' : invalidJsonError t = msg := by simpa [benchTerminalError] using h
    rw [vbLoop2_none, h']
  · cases hb : benchmarkSafeParse j with
    | ok d => exact absurd h (by simp [benchTerminalError, hb])
    | error issues =>
        have h' : failedValidationError (joinIssues issues) = msg := by
          simpa [benchTerminalError, hb] using h
        rw [vbLoop2_some]
        simp [hb, h']

theorem validateBenchmark_attempt2_ok (rf : Option (String → Raw)) (r : Raw) (d : BenchmarkResult)
    (h : benchSuccess r = some d) :
    validateBenchmarkLoop rf 1 2 r = (.ok d, []) := by
  obtain ⟨t, p⟩ := r
  rcases p with _ | j
  · exact absurd h (by simp [benchSuccess])
  · cases hb : benchmarkSafeParse j with
    | error issues => exact absurd h (by simp [benchSuccess, hb])
    | ok d' =>
        have h' : d' = d := by simpa [benchSuccess, hb] using h
        rw [vbLoop2_some]
        simp [hb, h']

theorem validateBenchmark_two_failures (f : String → Raw) (r : Raw) (fb msg2 : String)
    (h1 : benchFeedback r = some fb) (h2 : benchTerminalError (f fb) = some msg2) :
    validateBenchmarkOutput r (some f) = (.error msg2, [fb]) := by
  unfold validateBenchmarkOutput
  obtain ⟨t, p⟩ := r
  rcases p with _ | j
  · have hfb : syntaxFeedback = fb := by simpa [benchFeedback] using h1
    subst hfb
    rw [vbLoop1_none]
    simp [validateBenchmark_attempt2_err (some f) (f syntaxFeedback) msg2 h2]
  · cases hb : benchmarkSafeParse j with
    | ok d => exact absurd h1 (by simp [benchFeedback, hb])
    | error issues =>
        have hfb : schemaFeedback (joinIssues issues) = fb := by
          simpa [benchFeedback, hb] using h1
        subst hfb
        rw [vbLoop1_some]
        simp [hb, validateBenchmark_attempt2_err (some f)
          (f (schemaFeedback (joinIssues issues))) msg2 h2]

theorem validateBenchmark_fail_then_ok (f : String → Raw) (r : Raw) (fb : String)
    (d : BenchmarkResult)
    (h1 : benchFeedback r = some fb) (h2 : benchSuccess (f fb) = some d) :
    validateBenchmarkOutput r (some f) = (.ok d, [fb]) := by
  unfold validateBenchmarkOutput
  obtain ⟨t, p⟩ := r
  rcases p with _ | j
  · have hfb : syntaxFeedback = fb := by simpa [benchFeedback] using h1
    subst hfb
    rw [vbLoop1_none]
    simp [validateBenchmark_attempt2_ok (some f) (f syntaxFeedback) d h2]
  · cases hb : benchmarkSafeParse j with
    | ok d' => exact absurd h1 (by simp [benchFeedback, hb])
    | error issues =>
        have hfb : schemaFeedback (joinIssues issues) = fb := by
          simpa [benchFeedback, hb] using h1
        subst hfb
        rw [vbLoop1_some]
        simp [hb, validateBenchmark_attempt2_ok (some f)
          (f (schemaFeedback (joinIssues issues))) d h2]

theorem validateBenchmark_first_ok (rf : Option (String → Raw)) (r : Raw) (d : BenchmarkResult)
    (h : benchSuccess r = some d) :
    validateBenchmarkOutput r rf = (.ok d, []) := by
  unfold validateBenchmarkOutput
  obtain ⟨t, p⟩ := r
  rcases p with _ | j
  · exact absurd h (by simp [benchSuccess])
  · cases hb : benchmarkSafeParse j with
    | error issues => exact absurd h (by simp [benchSuccess, hb])
    | ok d' =>
        have h' : d' = d := by simpa [benchSuccess, hb] using h
        rw [vbLoop1_some]
        simp [hb, h']

theorem validateBenchmark2_ok_validated (rf : Option (String → Raw)) (r : Raw)
    (d : BenchmarkResult) (h : (validateBenchmarkLoop rf 1 2 r).1 = .ok d) :
    ∃ j, benchmarkSafeParse j = .ok d := by
  obtain ⟨t, p⟩ := r
  rcases p with _ | j
  · rw [vbLoop2_none] at h
    simp at h
  · rw [vbLoop2_some] at h
    cases hb : benchmarkSafeParse j with
    | error issues => simp [hb] at h
    | ok d' =>
        simp [hb] at h
        exact ⟨j, by rw [hb, h]⟩

theorem validateBenchmark_ok_validated (r : Raw) (rf : Option (String → Raw))
    (d : BenchmarkResult) (log : List String)
    (h : validateBenchmarkOutput r rf = (.ok d, log)) :
    ∃ j, benchmarkSafeParse j = .ok d := by
  unfold validateBenchmarkOutput at h
  obtain ⟨t, p⟩ := r
  rcases p with _ | j
  · rw [vbLoop1_none] at h
    rcases rf with _ | f
    · simp at h
    · simp only [Prod.mk.injEq] at h
      exact validateBenchmark2_ok_validated (some f) (f syntaxFeedback) d h.1
  · rw [vbLoop1_some] at h
    cases hb : benchmarkSafeParse j with
    | ok d' =>
        simp [hb] at h
        exact ⟨j, by rw [hb, h.1]⟩
    | error issues =>
        simp only [hb] at h
        rcases rf with _ | f
        · simp at h
        · simp only [Prod.mk.injEq] at h
          exact validateBenchmark2_ok_validated (some f)
            (f (schemaFeedback (joinIssues issues))) d h.1

/-! ### Scenario lemmas for the review validator -/

theorem validateReview_attempt2_err (rf : Option (String → Raw)) (r : Raw) (msg : String)
    (h : reviewTerminalError r = some msg) :
    validateReviewLoop rf 1 2 r = (.error msg, []) := by
  obtain ⟨t, p⟩ := r
  rcases p with _ | j
  · have h' : invalidJsonError t = msg := by simpa [reviewTerminalError] using h
    rw [vrLoop2_none, h']
  · cases hb : reviewSafeParse j with
    | ok d => exact absurd h (by simp [reviewTerminalError, hb])
    | error issues =>
        have h' : failedValidationError (joinIssues issues) = msg := by
          simpa [reviewTerminalError, hb] using h
        rw [vrLoop2_some]
        simp [hb, h']

theorem validateReview_attempt2_ok (rf : Option (String → Raw)) (r : Raw) (d : ReviewResult)
    (h : reviewSuccess r = some d) :
    validateReviewLoop rf 1 2 r = (.ok d, []) := by
  obtain ⟨t, p⟩ := r
  rcases p with _ | j
  · exact absurd h (by simp [reviewSuccess])
  · cases hb : reviewSafeParse j with
    | error issues => exact absurd h (by simp [reviewSuccess, hb])
    | ok d' =>
        have h' : d' = d := by simpa [reviewSuccess, hb] using h
        rw [vrLoop2_some]
        simp [hb, h']

theorem validateReview_two_failures (f : String → Raw) (r : Raw) (fb msg2 : String)
    (h1 : reviewFeedback r = some fb) (h2 : reviewTerminalError (f fb) = some msg2) :
    validateReviewOutput r (some f) = (.error msg2, [fb]) := by
  unfold validateReviewOutput
  obtain ⟨t, p⟩ := r
  rcases p with _ | j
  · have hfb : syntaxFeedback = fb := by simpa [reviewFeedback] using h1
    subst hfb
    rw [vrLoop1_none]
    simp [validateReview_attempt2_err (some f) (f syntaxFeedback) msg2 h2]
  · cases hb : reviewSafeParse j with
    | ok d => exact absurd h1 (by simp [reviewFeedback, hb])
    | error issues =>
        have hfb : schemaFeedback (joinIssues issues) = fb := by
          simpa [reviewFeedback, hb] using h1
        subst hfb
        rw [vrLoop1_some]
        simp [hb, validateReview_attempt2_err (some f)
          (f (schemaFeedback (joinIssues issues))) msg2 h2]

theorem validateReview_fail_then_ok (f : String → Raw) (r : Raw) (fb : String)
    (d : ReviewResult)
    (h1 : reviewFeedback r = some fb) (h2 : reviewSuccess (f fb) = some d) :
    validateReviewOutput r (some f) = (.ok d, [fb]) := by
  unfold validateReviewOutput
  obtain ⟨t, p⟩ := r
  rcases p with _ | j
  · have hfb : syntaxFeedback = fb := by simpa [reviewFeedback] using h1
    subst hfb
    rw [vrLoop1_none]
    simp [validateReview_attempt2_ok (some f) (f syntaxFeedback) d h2]
  · cases hb : reviewSafeParse j with
    | ok d' => exact absurd h1 (by simp [reviewFeedback, hb])
    | error issues =>
        have hfb : schemaFeedback (joinIssues issues) = fb := by
          simpa [reviewFeedback, hb] using h1
        subst hfb
        rw [vrLoop1_some]
        simp [hb, validateReview_attempt2_ok (some f)
          (f (schemaFeedback (joinIssues issues))) d h2]

theorem validateReview_first_ok (rf : Option (String → Raw)) (r : Raw) (d : ReviewResult)
    (h : reviewSuccess r = some d) :
    validateReviewOutput r rf = (.ok d, []) := by
  unfold validateReviewOutput
  obtain ⟨t, p⟩ := r
  rcases p with _ | j
  · exact absurd h (by simp [reviewSuccess])
  · cases hb : reviewSafeParse j with
    | error issues => exact absurd h (by simp [reviewSuccess, hb])
    | ok d' =>
        have h' : d' = d := by simpa [reviewSuccess, hb] using h
        rw [vrLoop1_some]
        simp [hb, h']

theorem validateReview2_ok_validated (rf : Option (String → Raw)) (r : Raw)
    (d : ReviewResult) (h : (validateReviewLoop rf 1 2 r).1 = .ok d) :
    ∃ j, reviewSafeParse j = .ok d := by
  obtain ⟨t, p⟩ := r
  rcases p with _ | j
  · rw [vrLoop2_none] at h
    simp at h
  · rw [vrLoop2_some] at h
    cases hb : reviewSafeParse j with
    | error issues => simp [hb] at h
    | ok d' =>
        simp [hb] at h
        exact ⟨j, by rw [hb, h]⟩

theorem validateReview_ok_validated (r : Raw) (rf : Option (String → Raw))
    (d : ReviewResult) (log : List String)
    (h : validateReviewOutput r rf = (.ok d, log)) :
    ∃ j, reviewSafeParse j = .ok d := by
  unfold validateReviewOutput at h
  obtain ⟨t, p⟩ := r
  rcases p with _ | j
  · rw [vrLoop1_none] at h
    rcases rf with _ | f
    · simp at h
    · simp only [Prod.mk.injEq] at h
      exact validateReview2_ok_validated (some f) (f syntaxFeedback) d h.1
  · rw [vrLoop1_some] at h
    cases hb : reviewSafeParse j with
    | ok d' =>
        simp [hb] at h
        exact ⟨j, by rw [hb, h.1]⟩
    | error issues =>
        simp only [hb] at h
        rcases rf with _ | f
        · simp at h
        · simp only [Prod.mk.injEq] at h
          exact validateReview2_ok_validated (some f)
            (f (schemaFeedback (joinIssues issues))) d h.1

/-! ### String containment -/

/-- `sub` occurs as a contiguous substring of `s`. -/
def strContains (s sub : String) : Prop := sub.data <:+: s.data

instance (s sub : String) : Decidable (strContains s sub) :=
  inferInstanceAs (Decidable (sub.data <:+: s.data))

/-- Boolean version of `strContains`. -/
def strContainsB (s sub : String) : Bool := decide (strContains s sub)

theorem strContains_append_mid (a mid c : String) : strContains (a ++ (mid ++ c)) mid := by
  unfold strContains
  exact ⟨a.data, c.data, by simp [String.data_append]⟩

theorem strContains_append_right (a b : String) : strContains (a ++ b) b := by
  unfold strContains
  exact ⟨a.data, [], by simp [String.data_append]⟩

/-! ### Claim theorems: orchestration -/

/-- Claim C1: when the first generation output fails validation and the
corrected second output also fails (whether a syntax or a schema failure,
the same as the first or a different one), the orchestration fails with an
error embedding the second failure's diagnostics, and the generator is
invoked exactly twice — the transcript is exactly the original prompt
followed by the one corrected prompt, with no further corrective loop.
Stated for the benchmark pipeline and for the review pipeline. -/
theorem claim1_double_failure_two_generations :
    (∀ (gen : PromptPair → Raw) (prompt : PromptPair) (fb msg2 : String),
      benchFeedback (gen prompt) = some fb →
      benchTerminalError (gen (mkCorrected prompt fb)) = some msg2 →
      benchmarkPipeline gen prompt = (.error msg2, [prompt, mkCorrected prompt fb])) ∧
    (∀ (gen : PromptPair → Raw) (prompt : PromptPair) (fb msg2 : String),
      reviewFeedback (gen prompt) = some fb →
      reviewTerminalError (gen (mkCorrected prompt fb)) = some msg2 →
      reviewPipeline gen prompt = (.error msg2, [prompt, mkCorrected prompt fb])) := by
  constructor
  · intro gen prompt fb msg2 h1 h2
    have h' := validateBenchmark_two_failures (fun s => gen (mkCorrected prompt s))
      (gen prompt) fb msg2 h1 h2
    simp [benchmarkPipeline, h']
  · intro gen prompt fb msg2 h1 h2
    have h' := validateReview_two_failures (fun s => gen (mkCorrected prompt s))
      (gen prompt) fb msg2 h1 h2
    simp [reviewPipeline, h']

/-- Witness for C1: a generator that always returns unparseable text fails
both attempts; both pipelines stop after exactly two generator calls. -/
theorem claim1_double_failure_two_generations_witness :
    benchmarkPipeline (fun _ => ⟨"not json", none⟩) ⟨"sys", "user"⟩ =
      (.error (invalidJsonError ("not json")),
        [⟨"sys", "user"⟩, mkCorrected ⟨"sys", "user"⟩ syntaxFeedback]) ∧
    reviewPipeline (fun _ => ⟨"not json", none⟩) ⟨"sys", "user"⟩ =
      (.error (invalidJsonError ("not json")),
        [⟨"sys", "user"⟩, mkCorrected ⟨"sys", "user"⟩ syntaxFeedback]) :=
  ⟨claim1_double_failure_two_generations.1 (fun _ => ⟨"not json", none⟩)
      ⟨"sys", "user"⟩ syntaxFeedback (invalidJsonError ("not json")) (by rfl) (by rfl),
   claim1_double_failure_two_generations.2 (fun _ => ⟨"not json", none⟩)
      ⟨"sys", "user"⟩ syntaxFeedback (invalidJsonError ("not json")) (by rfl) (by rfl)⟩

/-- Claim C2: on every path, a validator returns a structured result only
when that exact value passed Zod schema validation — whenever
`validateBenchmarkOutput` / `validateReviewOutput` returns `ok d`, the
value `d` is the success result of `safeParse` on some parsed JSON value;
every other path throws. -/
theorem claim2_no_unvalidated_result :
    (∀ (raw : Raw) (rf : Option (String → Raw)) (d : BenchmarkResult) (log : List String),
      validateBenchmarkOutput raw rf = (.ok d, log) →
      ∃ j, benchmarkSafeParse j = .ok d) ∧
    (∀ (raw : Raw) (rf : Option (String → Raw)) (d : ReviewResult) (log : List String),
      validateReviewOutput raw rf = (.ok d, log) →
      ∃ j, reviewSafeParse j = .ok d) :=
  ⟨fun raw rf d log h => validateBenchmark_ok_validated raw rf d log h,
   fun raw rf d log h => validateReview_ok_validated raw rf d log h⟩

/-- Witness for C2 at concrete successfully-validating raw outputs. -/
theorem claim2_no_unvalidated_result_witness :
    (∃ j, benchmarkSafeParse j =
      .ok ⟨62, 8, [], "covers the basics", "NDA Standard"⟩) ∧
    (∃ j, reviewSafeParse j =
      .ok ⟨35, 6, [], "risky", "Mutual NDA"⟩) :=
  ⟨claim2_no_unvalidated_result.1
      ⟨"", some (.obj [("alignmentScore", .num 62), ("totalClauses", .num 8),
        ("deviations", .arr []), ("summary", .str "covers the basics"),
        ("playbook", .str "NDA Standard")])⟩
      none ⟨62, 8, [], "covers the basics", "NDA Standard"⟩ [] (by rfl),
   claim2_no_unvalidated_result.2
      ⟨"", some (.obj [("riskScore", .num 35), ("totalFindings", .num 6),
        ("findings", .arr []), ("summary", .str "risky"),
        ("documentType", .str "Mutual NDA")])⟩
      none ⟨35, 6, [], "risky", "Mutual NDA"⟩ [] (by rfl)⟩

/-- Claim C7: when the first generation fails validation and the corrected
second generation passes, the end-to-end benchmark route succeeds; the
corrected prompt is a new `PromptPair` value (the original is a pure value
and is not modified) whose system prompt equals the original's and whose
user prompt is the original user prompt — which contains the document
text — extended by the correction note carrying the validator's
diagnostic feedback. -/
theorem claim7_corrected_prompt_preserves_document :
    ∀ (gen : PromptPair → Raw) (documentText : String) (pb : Playbook)
      (fb : String) (d : BenchmarkResult),
      benchFeedback (gen (buildBenchmarkPrompt documentText pb)) = some fb →
      benchSuccess (gen (mkCorrected (buildBenchmarkPrompt documentText pb) fb)) = some d →
      benchmarkRoute gen documentText pb =
        (.ok d, [buildBenchmarkPrompt documentText pb,
                 mkCorrected (buildBenchmarkPrompt documentText pb) fb]) ∧
      (mkCorrected (buildBenchmarkPrompt documentText pb) fb).systemPrompt =
        (buildBenchmarkPrompt documentText pb).systemPrompt ∧
      (mkCorrected (buildBenchmarkPrompt documentText pb) fb).userPrompt =
        (buildBenchmarkPrompt documentText pb).userPrompt ++ correctionNote ++ fb ∧
      strContains (mkCorrected (buildBenchmarkPrompt documentText pb) fb).userPrompt
        documentText ∧
      strContains (mkCorrected (buildBenchmarkPrompt documentText pb) fb).userPrompt fb := by
  intro gen documentText pb fb d h1 h2
  refine ⟨?_, rfl, rfl, ?_, ?_⟩
  · have h' := validateBenchmark_fail_then_ok
      (fun s => gen (mkCorrected (buildBenchmarkPrompt documentText pb) s))
      (gen (buildBenchmarkPrompt documentText pb)) fb d h1 h2
    simp [benchmarkRoute, benchmarkPipeline, h']
  · unfold mkCorrected buildBenchmarkPrompt correctionNote strContains
    exact ⟨userPre.data ++ pb.name.data ++ userMid.data,
      "\n---".data ++ ("\n\nIMPORTANT CORRECTION: " ++ fb).data,
      by simp [String.data_append]⟩
  · exact strContains_append_right _ fb

/-- Witness for C7: a generator returning bad JSON for the original prompt
and a valid payload for the corrected prompt. -/
theorem claim7_corrected_prompt_preserves_document_witness :
    benchmarkRoute
        (fun p => if p.userPrompt = (buildBenchmarkPrompt ("Doc") ⟨"nda", "P", "d", []⟩).userPrompt
          then ⟨"bad", none⟩
          else ⟨"", some (.obj [("alignmentScore", .num 90), ("totalClauses", .num 0),
            ("deviations", .arr []), ("summary", .str "fine"), ("playbook", .str "P")])⟩)
        ("Doc") ⟨"nda", "P", "d", []⟩ =
      (.ok ⟨90, 0, [], "fine", "P"⟩,
        [buildBenchmarkPrompt ("Doc") ⟨"nda", "P", "d", []⟩,
         mkCorrected (buildBenchmarkPrompt ("Doc") ⟨"nda", "P", "d", []⟩) syntaxFeedback]) ∧
    strContains
      (mkCorrected (buildBenchmarkPrompt ("Doc") ⟨"nda", "P", "d", []⟩) syntaxFeedback).userPrompt
      ("Doc") :=
  have h := claim7_corrected_prompt_preserves_document
    (fun p => if p.userPrompt = (buildBenchmarkPrompt ("Doc") ⟨"nda", "P", "d", []⟩).userPrompt
      then ⟨"bad", none⟩
      else ⟨"", some (.obj [("alignmentScore", .num 90), ("totalClauses", .num 0),
        ("deviations", .arr []), ("summary", .str "fine"), ("playbook", .str "P")])⟩)
    ("Doc") ⟨"nda", "P", "d", []⟩ syntaxFeedback ⟨90, 0, [], "fine", "P"⟩
    (by rfl) (by rfl)
  ⟨h.1, h.2.2.2.1⟩

/-! ### Round-trip lemmas: serialize then validate -/

theorem deviationType_ofStr_toStr (d : DeviationType) :
    DeviationType.ofStr d.toStr = some d := by
  cases d <;> rfl

theorem severity_ofStr_toStr (s : Severity) :
    Severity.ofStr s.toStr = some s := by
  cases s <;> rfl

theorem riskCategory_ofStr_toStr (c : RiskCategory) :
    RiskCategory.ofStr c.toStr = some c := by
  cases c <;> rfl

theorem parseClauseDeviation_toJson (path : List String) (d : ClauseDeviation) :
    parseClauseDeviation path (devToJson d) = .ok d := by
  obtain ⟨a, b, c, dt, sv, ex, sf, lh⟩ := d
  rcases sf with _ | s <;>
    simp [parseClauseDeviation, devToJson, getField, parseStringField,
      parseOptStringField, parseDeviationTypeField, parseSeverityField,
      deviationType_ofStr_toStr, severity_ofStr_toStr]

theorem parseRiskFinding_toJson (path : List String) (f : RiskFinding) :
    parseRiskFinding path (findingToJson f) = .ok f := by
  obtain ⟨a, rc, sv, de, ex, sa, lh⟩ := f
  rcases sa with _ | s <;>
    simp [parseRiskFinding, findingToJson, getField, parseStringField,
      parseOptStringField, parseRiskCategoryField, parseSeverityField,
      riskCategory_ofStr_toStr, severity_ofStr_toStr]

theorem parseArrayElems_devToJson (path : List String) :
    ∀ (ds : List ClauseDeviation) (i : Nat),
      parseArrayElems parseClauseDeviation path i (ds.map devToJson) = .ok ds := by
  intro ds
  induction ds with
  | nil => intro i; rfl
  | cons d rest ih =>
      intro i
      simp [parseArrayElems, parseClauseDeviation_toJson, ih]

theorem parseArrayElems_findingToJson (path : List String) :
    ∀ (fs : List RiskFinding) (i : Nat),
      parseArrayElems parseRiskFinding path i (fs.map findingToJson) = .ok fs := by
  intro fs
  induction fs with
  | nil => intro i; rfl
  | cons f rest ih =>
      intro i
      simp [parseArrayElems, parseRiskFinding_toJson, ih]

theorem benchmarkSafeParse_toJson (b : BenchmarkResult)
    (h1 : 0 ≤ b.alignmentScore) (h2 : b.alignmentScore ≤ 100) :
    benchmarkSafeParse (benchmarkToJson b) = .ok b := by
  obtain ⟨sc, tc, ds, su, pbk⟩ := b
  simp only at h1 h2
  simp [benchmarkSafeParse, benchmarkToJson, getField, parseScoreField,
    parseNumberField, parseStringField, parseArrayField, parseArrayElems_devToJson,
    not_lt.mpr h1, not_lt.mpr h2]

theorem reviewSafeParse_toJson (v : ReviewResult)
    (h1 : 0 ≤ v.riskScore) (h2 : v.riskScore ≤ 100) :
    reviewSafeParse (reviewToJson v) = .ok v := by
  obtain ⟨sc, tf, fs, su, dt⟩ := v
  simp only at h1 h2
  simp [reviewSafeParse, reviewToJson, getField, parseScoreField,
    parseNumberField, parseStringField, parseArrayField, parseArrayElems_findingToJson,
    not_lt.mpr h1, not_lt.mpr h2]

/-- Claim C4: for every payload conforming to the contract (scores within
the 0-100 range the schemas demand), validating its JSON serialization
succeeds and returns a value equal to the original payload, for both the
benchmark and the review validator (round-trip identity). -/
theorem claim4_validate_serialize_roundtrip :
    (∀ (b : BenchmarkResult) (rf : Option (String → Raw)),
      0 ≤ b.alignmentScore → b.alignmentScore ≤ 100 →
      validateBenchmarkOutput (Raw.ofJson (benchmarkToJson b)) rf = (.ok b, [])) ∧
    (∀ (v : ReviewResult) (rf : Option (String → Raw)),
      0 ≤ v.riskScore → v.riskScore ≤ 100 →
      validateReviewOutput (Raw.ofJson (reviewToJson v)) rf = (.ok v, [])) := by
  constructor
  · intro b rf h1 h2
    exact validateBenchmark_first_ok rf _ b
      (by simp [Raw.ofJson, benchSuccess, benchmarkSafeParse_toJson b h1 h2])
  · intro v rf h1 h2
    exact validateReview_first_ok rf _ v
      (by simp [Raw.ofJson, reviewSuccess, reviewSafeParse_toJson v h1 h2])

/-- Witness for C4 at concrete conforming payloads (one deviation carrying
an optional fix, one finding without an optional alternative). -/
theorem claim4_validate_serialize_roundtrip_witness :
    validateBenchmarkOutput
      (Raw.ofJson (benchmarkToJson ⟨62, 8,
        [⟨"Term", "one year", "two years", .weaker, .major, "too short",
          some ("extend it"), "valid for one (1) year"⟩],
        "gaps found", "NDA Standard"⟩)) none =
      (.ok ⟨62, 8,
        [⟨"Term", "one year", "two years", .weaker, .major, "too short",
          some ("extend it"), "valid for one (1) year"⟩],
        "gaps found", "NDA Standard"⟩, []) ∧
    validateReviewOutput
      (Raw.ofJson (reviewToJson ⟨35, 6,
        [⟨"Vague obligations", .confidentiality, .critical, "keep it secret",
          "unenforceable", none, "keep it secret"⟩],
        "risky", "Mutual NDA"⟩)) none =
      (.ok ⟨35, 6,
        [⟨"Vague obligations", .confidentiality, .critical, "keep it secret",
          "unenforceable", none, "keep it secret"⟩],
        "risky", "Mutual NDA"⟩, []) :=
  ⟨claim4_validate_serialize_roundtrip.1 _ none (by decide) (by decide),
   claim4_validate_serialize_roundtrip.2 _ none (by decide) (by decide)⟩

/-! ### Claim C5: multi-violation diagnostics -/

/-- A syntactically valid payload violating the benchmark contract in two
places at once: `alignmentScore` is 150 and `deviations[0].severity` is
outside the closed enumeration. -/
def multiViolationPayload : Json :=
  .obj [("alignmentScore", .num 150), ("totalClauses", .num 8),
        ("deviations", .arr [.obj [("clauseTitle", .str "Term"),
          ("documentExcerpt", .str "one year"), ("standardExcerpt", .str "two years"),
          ("deviationType", .str "weaker"), ("severity", .str "blocker"),
          ("explanation", .str "too short"), ("locationHint", .str "one (1) year")]]),
        ("summary", .str "gaps"), ("playbook", .str "NDA Standard")]

/-- The same payload with the score back in range: a single remaining
violation anywhere in the structure still invalidates the whole result. -/
def singleViolationPayload : Json :=
  .obj [("alignmentScore", .num 62), ("totalClauses", .num 8),
        ("deviations", .arr [.obj [("clauseTitle", .str "Term"),
          ("documentExcerpt", .str "one year"), ("standardExcerpt", .str "two years"),
          ("deviationType", .str "weaker"), ("severity", .str "blocker"),
          ("explanation", .str "too short"), ("locationHint", .str "one (1) year")]]),
        ("summary", .str "gaps"), ("playbook", .str "NDA Standard")]

/-- Claim C5: a schema-violating payload yields one issue per violating
field — every violating field, not just the first — each rendered as
`<field path>: <human message>` and joined with `"; "` in schema shape
order (a deterministic order, since the validator is a function of the
payload); and the validator's terminal error carries exactly that joined
diagnostic.  A payload with a single violation anywhere in the structure
is still rejected as a whole. -/
theorem claim5_all_violating_fields_listed :
    benchmarkSafeParse multiViolationPayload =
      .error [⟨["alignmentScore"], "Number must be less than or equal to 100"⟩,
              ⟨["deviations", "0", "severity"],
                "Invalid enum value. Expected \x27critical\x27 | \x27major\x27 | \x27minor\x27 | \x27info\x27, received \x27blocker\x27"⟩] ∧
    validateBenchmarkOutput ⟨"raw text", some multiViolationPayload⟩ none =
      (.error ("LLM output failed validation: alignmentScore: Number must be less than or equal to 100; deviations.0.severity: Invalid enum value. Expected \x27critical\x27 | \x27major\x27 | \x27minor\x27 | \x27info\x27, received \x27blocker\x27"), []) ∧
    benchmarkSafeParse singleViolationPayload =
      .error [⟨["deviations", "0", "severity"],
                "Invalid enum value. Expected \x27critical\x27 | \x27major\x27 | \x27minor\x27 | \x27info\x27, received \x27blocker\x27"⟩] :=
  ⟨rfl, rfl, rfl⟩

/-! ### Claim C10: count fields are unconstrained -/

/-- Claim C10 (implicit): the count fields of both contracts are plain
`z.number()` with no constraint — a negative `totalClauses`, a fractional
`totalClauses`, and a `totalFindings` different from the length of
`findings` all validate successfully; the 0-100 range is enforced only on
`alignmentScore` / `riskScore`, which reject 150. -/
theorem claim10_count_fields_unconstrained :
    benchmarkSafeParse (.obj [("alignmentScore", .num 100), ("totalClauses", .num (-3)),
        ("deviations", .arr []), ("summary", .str "s"), ("playbook", .str "p")]) =
      .ok ⟨100, -3, [], "s", "p"⟩ ∧
    (-3 : ℚ) < 0 ∧ (-3 : ℚ) ≠ (([] : List ClauseDeviation).length : ℚ) ∧
    benchmarkSafeParse (.obj [("alignmentScore", .num 100), ("totalClauses", .num ((5:ℚ)/2)),
        ("deviations", .arr []), ("summary", .str "s"), ("playbook", .str "p")]) =
      .ok ⟨100, (5:ℚ)/2, [], "s", "p"⟩ ∧
    (2 : ℚ) < (5:ℚ)/2 ∧ ((5:ℚ)/2) < 3 ∧
    reviewSafeParse (.obj [("riskScore", .num 50), ("totalFindings", .num 3),
        ("findings", .arr []), ("summary", .str "s"), ("documentType", .str "d")]) =
      .ok ⟨50, 3, [], "s", "d"⟩ ∧
    (3 : ℚ) ≠ (([] : List RiskFinding).length : ℚ) ∧
    benchmarkSafeParse (.obj [("alignmentScore", .num 150), ("totalClauses", .num 0),
        ("deviations", .arr []), ("summary", .str "s"), ("playbook", .str "p")]) =
      .error [⟨["alignmentScore"], "Number must be less than or equal to 100"⟩] ∧
    reviewSafeParse (.obj [("riskScore", .num 150), ("totalFindings", .num 0),
        ("findings", .arr []), ("summary", .str "s"), ("documentType", .str "d")]) =
      .error [⟨["riskScore"], "Number must be less than or equal to 100"⟩] :=
  ⟨rfl, by norm_num, by norm_num, rfl, by norm_num, by norm_num, rfl, by norm_num, rfl, rfl⟩

/-! ### Claim C8: zero standard clauses

With `clauses = []`, `buildBenchmarkPrompt` renders an *empty* clause
section (`clauseList` is the empty string): the playbook header is
followed directly by the output-format section.  The system prompt
contains no "no standard clauses" text anywhere. -/

set_option maxRecDepth 40000

theorem infix_append_split {α : Type} (p a b : List α) (h : p <:+: a ++ b) :
    p <:+: a ++ b.take (p.length - 1) ∨ p <:+: b := by
  rcases h with ⟨x, y, hxy⟩
  by_cases hc : x.length + p.length ≤ a.length + (p.length - 1)
  · left
    have hpre : x ++ p <+: a ++ b := ⟨y, hxy⟩
    have hlen : (x ++ p).length ≤ a.length + (p.length - 1) := by
      simp only [List.length_append]; omega
    have hp2 : x ++ p <+: (a ++ b).take (a.length + (p.length - 1)) :=
      List.prefix_take_iff.mpr ⟨hpre, hlen⟩
    rw [List.take_append] at hp2
    exact (List.suffix_append x p).isInfix.trans hp2.isInfix
  · right
    rcases Nat.eq_zero_or_pos p.length with hp0 | hp0
    · rw [List.length_eq_zero.mp hp0]
      exact List.nil_infix
    · have hxa : a.length ≤ x.length := by omega
      have hb : b = x.drop a.length ++ (p ++ y) := by
        have h1 : (a ++ b).drop a.length = b := List.drop_left a b
        rw [← hxy, List.append_assoc, List.drop_append_of_le_length hxa] at h1
        exact h1.symm
      rw [hb]
      exact ⟨x.drop a.length, y, by simp [List.append_assoc]⟩

theorem not_infix_append {α : Type} (p a b : List α)
    (h1 : ¬ p <:+: a ++ b.take (p.length - 1)) (h2 : ¬ p <:+: b) :
    ¬ p <:+: a ++ b :=
  fun h => (infix_append_split p a b h).elim h1 h2

/-- A comparison task parameterized with zero standard clauses. -/
def emptyPlaybook : Playbook := ⟨"empty", "Empty Playbook", "no clauses yet", []⟩

/-- With zero clauses the clause list renders to the empty string, so the
system prompt is exactly the template around it (note `"" ++ s` is
definitionally `s`). -/
theorem emptyPlaybook_system_prompt :
    (buildBenchmarkPrompt ("Some document.") emptyPlaybook).systemPrompt =
      sysPre1 ++ (sysPre2 ++ (sysPre3 ++ ("Empty Playbook" ++ ("\"\n" ++ (sysMid1 ++
        ("0" ++ (sysMid2 ++ ("Empty Playbook" ++ (sysPost1 ++ sysPost2))))))))) := rfl

/-- Counterexample to Claim C8 as stated: for the zero-clause playbook, the
composed instruction text does NOT contain an explicit "no standard
clauses" condition — the phrase occurs nowhere in the system prompt. -/
theorem claim8_counterexample_no_such_condition :
    strContainsB (buildBenchmarkPrompt ("Some document.") emptyPlaybook).systemPrompt
      ("no standard clauses") = false := by
  apply decide_eq_false
  unfold strContains
  rw [emptyPlaybook_system_prompt]
  simp only [String.data_append]
  refine not_infix_append _ _ _ (by decide) ?_
  refine not_infix_append _ _ _ (by decide) ?_
  refine not_infix_append _ _ _ (by decide) ?_
  refine not_infix_append _ _ _ (by decide) ?_
  refine not_infix_append _ _ _ (by decide) ?_
  refine not_infix_append _ _ _ (by decide) ?_
  refine not_infix_append _ _ _ (by decide) ?_
  refine not_infix_append _ _ _ (by decide) ?_
  refine not_infix_append _ _ _ (by decide) ?_
  refine not_infix_append _ _ _ (by decide) ?_
  decide

/-- Claim C8 as amended: for a comparison task with zero standard clauses
the composed instruction text renders an empty clause section — the
playbook header is immediately followed by the output-format section (and
the declared `"totalClauses"` is 0) — rather than any explicit "no
standard clauses" note; and a generation result with `totalClauses: 0`
and an empty deviations list validates successfully against the
benchmark contract. -/
theorem claim8_empty_clause_section_amended :
    strContains (buildBenchmarkPrompt ("Some document.") emptyPlaybook).systemPrompt
      ("STANDARD PLAYBOOK: \"Empty Playbook\"\n\n\nOUTPUT FORMAT (strict JSON):") ∧
    strContains (buildBenchmarkPrompt ("Some document.") emptyPlaybook).systemPrompt
      ("\"totalClauses\": 0,") ∧
    benchmarkSafeParse (.obj [("alignmentScore", .num 100), ("totalClauses", .num 0),
        ("deviations", .arr []), ("summary", .str "No clauses to compare."),
        ("playbook", .str "Empty Playbook")]) =
      .ok ⟨100, 0, [], "No clauses to compare.", "Empty Playbook"⟩ := by
  refine ⟨?_, ?_, rfl⟩
  · unfold strContains
    rw [emptyPlaybook_system_prompt]
    have h3 : sysPre3 =
      "ide a brief explanation of the deviation\n5. Suggest a fix when the deviation is \"missing\", \"weaker\", or \"different\"\n6. Include a locationHint — quote 5-10 words from the document where the clause appears (or \"Not found in document\" if missing)\n\n"
        ++ "STANDARD PLAYBOOK: \"" := rfl
    have hM : sysMid1 = "\n\nOUTPUT FORMAT (strict JSON):"
        ++ "\n\x7b\n  \"alignmentScore\": <number 0-100>,\n  \"totalClauses\": " := rfl
    have hA : ("STANDARD PLAYBOOK: \"Empty Playbook\"\n\n\nOUTPUT FORMAT (strict JSON):" : String) =
      "STANDARD PLAYBOOK: \"" ++ ("Empty Playbook" ++ ("\"\n" ++ "\n\nOUTPUT FORMAT (strict JSON):")) := rfl
    rw [h3, hM, hA]
    refine ⟨(sysPre1 ++ (sysPre2 ++ "ide a brief explanation of the deviation\n5. Suggest a fix when the deviation is \"missing\", \"weaker\", or \"different\"\n6. Include a locationHint — quote 5-10 words from the document where the clause appears (or \"Not found in document\" if missing)\n\n")).data,
      ("\n\x7b\n  \"alignmentScore\": <number 0-100>,\n  \"totalClauses\": "
        ++ ("0" ++ (sysMid2 ++ ("Empty Playbook" ++ (sysPost1 ++ sysPost2))))).data, ?_⟩
    simp [String.data_append, List.append_assoc]
  · unfold strContains
    rw [emptyPlaybook_system_prompt]
    have hM1 : sysMid1 = "\n\nOUTPUT FORMAT (strict JSON):\n\x7b\n  \"alignmentScore\": <number 0-100>,\n  "
        ++ "\"totalClauses\": " := rfl
    have hM2 : sysMid2 = "," ++ "\n  \"playbook\": \"" := rfl
    have hB : ("\"totalClauses\": 0," : String) =
      "\"totalClauses\": " ++ ("0" ++ ",") := rfl
    rw [hM1, hM2, hB]
    refine ⟨(sysPre1 ++ (sysPre2 ++ (sysPre3 ++ ("Empty Playbook" ++ ("\"\n"
        ++ "\n\nOUTPUT FORMAT (strict JSON):\n\x7b\n  \"alignmentScore\": <number 0-100>,\n  "))))).data,
      ("\n  \"playbook\": \"" ++ ("Empty Playbook" ++ (sysPost1 ++ sysPost2))).data, ?_⟩
    simp [String.data_append, List.append_assoc]

end Casus
